import Mathlib

/-!
# Verification of the sazabi logging facade

A shallow embedding of `logger.go` from `zeroxsolutions/sazabi`, a thin
facade over the zap structured-logging library, together with proofs of the
configuration-resolution and facade properties stated in the repository's
specification.

The embedding has two layers:

* namespace `Zap` — a model of the slice of `go.uber.org/zap` (the external
  collaborator) that `logger.go` uses: the `Config` value, its
  `NewDevelopmentConfig` preset, `Config.Build`, the `AddCallerSkip` option,
  and the sugared logger with level filtering. Field values of the presets
  are transcribed from the zap sources; Go zero values of fields a literal
  leaves unset are made explicit.
* namespace `Sazabi` — the package `sazabi` itself: the environment
  constants, `Initialize`, `newProductionConfig`,
  `newProductionEncoderConfig`, `Default`, and the eighteen global facade
  functions. The package-level mutable variable `logger` is embedded as
  explicit state passing over `GlobalState`; a Go `panic(err)` surfaces as
  the `.error` branch of `Except`.
-/

namespace Zap

/-- Log severities of zapcore, in increasing order of severity. -/
inductive Level where
  | debugLevel
  | infoLevel
  | warnLevel
  | errorLevel
  | dpanicLevel
  | panicLevel
  | fatalLevel
deriving DecidableEq, Repr

/-- The numeric value zapcore assigns to each level (Debug = -1, ... Fatal = 5). -/
def Level.toInt : Level → Int
  | .debugLevel => -1
  | .infoLevel => 0
  | .warnLevel => 1
  | .errorLevel => 2
  | .dpanicLevel => 3
  | .panicLevel => 4
  | .fatalLevel => 5

/-- `threshold.enabled lvl`: a logger whose minimum level is `threshold`
emits an entry of severity `lvl` (zapcore: `lvl >= threshold`). -/
def Level.enabled (threshold lvl : Level) : Bool :=
  threshold.toInt ≤ lvl.toInt

/-- Level encoders of zapcore that a config can name. -/
inductive LevelEncoder where
  | capitalLevelEncoder
  | capitalColorLevelEncoder
  | lowercaseLevelEncoder
  | lowercaseColorLevelEncoder
deriving DecidableEq, Repr

/-- Time encoders of zapcore that a config can name. -/
inductive TimeEncoder where
  | iso8601TimeEncoder
  | epochTimeEncoder
  | epochMillisTimeEncoder
  | rfc3339TimeEncoder
deriving DecidableEq, Repr

/-- Duration encoders of zapcore that a config can name. -/
inductive DurationEncoder where
  | secondsDurationEncoder
  | stringDurationEncoder
  | nanosDurationEncoder
  | millisDurationEncoder
deriving DecidableEq, Repr

/-- Caller encoders of zapcore that a config can name. -/
inductive CallerEncoder where
  | shortCallerEncoder
  | fullCallerEncoder
deriving DecidableEq, Repr

/-- zapcore's default line ending. -/
def DefaultLineEnding : String := "\n"

/-- zapcore's `EncoderConfig`: output key names and formatting rules for the
semantic fields of a log entry. Fields a Go literal leaves unset take the
zero value (the empty string). -/
structure EncoderConfig where
  timeKey : String
  levelKey : String
  nameKey : String
  callerKey : String
  functionKey : String
  messageKey : String
  stacktraceKey : String
  lineEnding : String
  encodeLevel : LevelEncoder
  encodeTime : TimeEncoder
  encodeDuration : DurationEncoder
  encodeCaller : CallerEncoder
deriving DecidableEq, Repr

/-- zap's `SamplingConfig`: after `initial` identical entries per second,
only every `thereafter`-th is emitted. -/
structure SamplingConfig where
  initial : Int
  thereafter : Int
deriving DecidableEq, Repr

/-- zap's `Config` value object. `sampling = none` embeds a nil
`*SamplingConfig`; boolean fields a Go literal leaves unset are false. -/
structure Config where
  level : Level
  development : Bool
  disableCaller : Bool
  disableStacktrace : Bool
  sampling : Option SamplingConfig
  encoding : String
  encoderConfig : EncoderConfig
  outputPaths : List String
  errorOutputPaths : List String
deriving DecidableEq, Repr

/-- zap's `NewDevelopmentEncoderConfig`, transcribed from the zap source. -/
def NewDevelopmentEncoderConfig : EncoderConfig where
  timeKey := "T"
  levelKey := "L"
  nameKey := "N"
  callerKey := "C"
  functionKey := ""
  messageKey := "M"
  stacktraceKey := "S"
  lineEnding := DefaultLineEnding
  encodeLevel := .capitalLevelEncoder
  encodeTime := .iso8601TimeEncoder
  encodeDuration := .stringDurationEncoder
  encodeCaller := .shortCallerEncoder

/-- zap's `NewDevelopmentConfig`, transcribed from the zap source: Debug
level, development mode, console encoding, no sampling, both output paths
"stderr"; `disableStacktrace` and `disableCaller` are the Go zero value
false (so the library's default leaves stack traces enabled). -/
def NewDevelopmentConfig : Config where
  level := .debugLevel
  development := true
  disableCaller := false
  disableStacktrace := false
  sampling := none
  encoding := "console"
  encoderConfig := NewDevelopmentEncoderConfig
  outputPaths := ["stderr"]
  errorOutputPaths := ["stderr"]

/-- The encodings zap registers out of the box; `Config.Build` fails on any
other encoding name. -/
def registeredEncodings : List String := ["console", "json"]

/-- A built zap logger: the configuration it was realized from, plus the
accumulated caller-frame skip (0 when freshly built). -/
structure Logger where
  config : Config
  callerSkip : Int
deriving DecidableEq, Repr

/-- The build failure a config can provoke in this model: the encoding
names no registered encoder. (Sink opening is environment-dependent; the
standard-stream sinks this repository uses always open, so the unknown
encoding is the statically decidable failure mode of `Config.Build`.) -/
inductive BuildError where
  | noEncoderRegistered (encoding : String)
deriving DecidableEq, Repr

/-- zap's `Config.Build`: realize a logger from a config, failing when the
encoding is not registered. A fresh logger has caller skip 0. -/
def Config.Build (cfg : Config) : Except BuildError Logger :=
  if registeredEncodings.contains cfg.encoding then
    .ok { config := cfg, callerSkip := 0 }
  else
    .error (.noEncoderRegistered cfg.encoding)

/-- The zap logger options `logger.go` uses. -/
inductive LoggerOption where
  | addCallerSkipOption (skip : Int)
deriving DecidableEq, Repr

/-- zap's `AddCallerSkip(skip)` option. -/
def AddCallerSkip (skip : Int) : LoggerOption := .addCallerSkipOption skip

/-- zap's `Logger.WithOptions` restricted to the options modelled here:
`AddCallerSkip` adds to the accumulated caller skip. -/
def Logger.WithOptions (l : Logger) (opt : LoggerOption) : Logger :=
  match opt with
  | .addCallerSkipOption n => { l with callerSkip := l.callerSkip + n }

/-- zap's sugared logger: a wrapper exposing the variadic, printf-style and
key/value calling conventions on top of a base logger. -/
structure SugaredLogger where
  base : Logger
deriving DecidableEq, Repr

/-- zap's `Logger.Sugar`. -/
def Logger.Sugar (l : Logger) : SugaredLogger := { base := l }

/-- The three argument shapes of a sugared call: plain variadic, template
plus substitution arguments, and message plus key/value pairs. Arguments are
abstracted to strings; their stringification is the library's concern. -/
inductive CallShape where
  | plainArgs (args : List String)
  | formatted (template : String) (args : List String)
  | structured (msg : String) (keysValues : List String)
deriving DecidableEq, Repr

/-- A log entry as observed on the output target. -/
structure LogEntry where
  level : Level
  payload : CallShape
deriving DecidableEq, Repr

/-- A sugared call at severity `lvl`: emits an entry when the logger's
minimum level enables `lvl`, otherwise emits nothing. -/
def SugaredLogger.log (lg : SugaredLogger) (lvl : Level) (payload : CallShape) :
    Option LogEntry :=
  if lg.base.config.level.enabled lvl then
    some { level := lvl, payload := payload }
  else
    none

def SugaredLogger.Debug (lg : SugaredLogger) (args : List String) : Option LogEntry :=
  lg.log .debugLevel (.plainArgs args)

def SugaredLogger.Debugf (lg : SugaredLogger) (template : String) (args : List String) :
    Option LogEntry :=
  lg.log .debugLevel (.formatted template args)

def SugaredLogger.Debugw (lg : SugaredLogger) (msg : String) (keysValues : List String) :
    Option LogEntry :=
  lg.log .debugLevel (.structured msg keysValues)

def SugaredLogger.Info (lg : SugaredLogger) (args : List String) : Option LogEntry :=
  lg.log .infoLevel (.plainArgs args)

def SugaredLogger.Infof (lg : SugaredLogger) (template : String) (args : List String) :
    Option LogEntry :=
  lg.log .infoLevel (.formatted template args)

def SugaredLogger.Infow (lg : SugaredLogger) (msg : String) (keysValues : List String) :
    Option LogEntry :=
  lg.log .infoLevel (.structured msg keysValues)

def SugaredLogger.Warn (lg : SugaredLogger) (args : List String) : Option LogEntry :=
  lg.log .warnLevel (.plainArgs args)

def SugaredLogger.Warnf (lg : SugaredLogger) (template : String) (args : List String) :
    Option LogEntry :=
  lg.log .warnLevel (.formatted template args)

def SugaredLogger.Warnw (lg : SugaredLogger) (msg : String) (keysValues : List String) :
    Option LogEntry :=
  lg.log .warnLevel (.structured msg keysValues)

def SugaredLogger.Error (lg : SugaredLogger) (args : List String) : Option LogEntry :=
  lg.log .errorLevel (.plainArgs args)

def SugaredLogger.Errorf (lg : SugaredLogger) (template : String) (args : List String) :
    Option LogEntry :=
  lg.log .errorLevel (.formatted template args)

def SugaredLogger.Errorw (lg : SugaredLogger) (msg : String) (keysValues : List String) :
    Option LogEntry :=
  lg.log .errorLevel (.structured msg keysValues)

def SugaredLogger.Fatal (lg : SugaredLogger) (args : List String) : Option LogEntry :=
  lg.log .fatalLevel (.plainArgs args)

def SugaredLogger.Fatalf (lg : SugaredLogger) (template : String) (args : List String) :
    Option LogEntry :=
  lg.log .fatalLevel (.formatted template args)

def SugaredLogger.Fatalw (lg : SugaredLogger) (msg : String) (keysValues : List String) :
    Option LogEntry :=
  lg.log .fatalLevel (.structured msg keysValues)

def SugaredLogger.Panic (lg : SugaredLogger) (args : List String) : Option LogEntry :=
  lg.log .panicLevel (.plainArgs args)

def SugaredLogger.Panicf (lg : SugaredLogger) (template : String) (args : List String) :
    Option LogEntry :=
  lg.log .panicLevel (.formatted template args)

def SugaredLogger.Panicw (lg : SugaredLogger) (msg : String) (keysValues : List String) :
    Option LogEntry :=
  lg.log .panicLevel (.structured msg keysValues)

end Zap

namespace Sazabi

/-- `ProductionEnvName = "production"` from logger.go. -/
def ProductionEnvName : String := "production"

/-- `ProductionEnvShortName = "prod"` from logger.go. -/
def ProductionEnvShortName : String := "prod"

/-- The package-level mutable state of sazabi: the global `logger` variable.
`none` embeds the Go zero value (nil interface) it holds before any
successful `Initialize`. -/
structure GlobalState where
  logger : Option Zap.SugaredLogger
deriving DecidableEq, Repr

/-- The state at process start, before `Initialize` has run. -/
def initialState : GlobalState := { logger := none }

/-- `newProductionEncoderConfig` from logger.go; `functionKey` is the Go
zero value, left unset by the literal. -/
def newProductionEncoderConfig : Zap.EncoderConfig where
  timeKey := "ts"
  levelKey := "level"
  nameKey := "logger"
  callerKey := "caller"
  functionKey := ""
  messageKey := "msg"
  stacktraceKey := "stacktrace"
  lineEnding := Zap.DefaultLineEnding
  encodeLevel := .capitalLevelEncoder
  encodeTime := .iso8601TimeEncoder
  encodeDuration := .secondsDurationEncoder
  encodeCaller := .shortCallerEncoder

/-- `newProductionConfig` from logger.go; `disableCaller` and
`disableStacktrace` are the Go zero value false, left unset by the
literal. -/
def newProductionConfig : Zap.Config where
  level := .infoLevel
  development := false
  disableCaller := false
  disableStacktrace := false
  sampling := some { initial := 100, thereafter := 100 }
  encoding := "console"
  encoderConfig := newProductionEncoderConfig
  outputPaths := ["stderr"]
  errorOutputPaths := ["stderr"]

/-- The configuration `Initialize` resolves from the environment label and
hands to `Config.Build`: `newProductionConfig`, replaced by
`zap.NewDevelopmentConfig()` when the label is neither `ProductionEnvName`
nor `ProductionEnvShortName`, with `DisableStacktrace` then set to true. -/
def resolvedConfig (environment : String) : Zap.Config :=
  let conf := newProductionConfig
  let conf :=
    if environment ≠ ProductionEnvName ∧ environment ≠ ProductionEnvShortName then
      Zap.NewDevelopmentConfig
    else
      conf
  { conf with disableStacktrace := true }

/-- `Initialize` from logger.go as a state transition: build the resolved
configuration; on build failure propagate the error (the Go `panic(err)`);
on success overwrite the global logger with the built logger, wrapped with
`AddCallerSkip(1)` and sugared. The prior state is discarded, never read. -/
def Initialize (environment : String) (_s : GlobalState) :
    Except Zap.BuildError GlobalState :=
  match (resolvedConfig environment).Build with
  | .error err => .error err
  | .ok lg => .ok { logger := some ((lg.WithOptions (Zap.AddCallerSkip 1)).Sugar) }

/-- `Default` from logger.go: build `zap.NewDevelopmentConfig()` with
`DisableStacktrace` set to true and return the sugared,
caller-skip-adjusted logger; the body never touches the global state. -/
def Default : Except Zap.BuildError Zap.SugaredLogger :=
  let conf := Zap.NewDevelopmentConfig
  let conf := { conf with disableStacktrace := true }
  match conf.Build with
  | .error err => .error err
  | .ok lg => .ok ((lg.WithOptions (Zap.AddCallerSkip 1)).Sugar)

/-- `Default` in the state-passing embedding of the package: its body reads
and writes no package-level variable, so it returns the state unchanged. -/
def DefaultSt (s : GlobalState) :
    Except Zap.BuildError Zap.SugaredLogger × GlobalState :=
  (Default, s)

/-- The failure class of a facade call on an uninitialized package: the
Go call `logger.Debug(...)` dereferences a nil interface and crashes. -/
inductive UseError where
  | nilDereference
deriving DecidableEq, Repr

def Debug (s : GlobalState) (args : List String) :
    Except UseError (Option Zap.LogEntry) :=
  match s.logger with
  | none => .error .nilDereference
  | some lg => .ok (lg.Debug args)

def Debugf (s : GlobalState) (template : String) (args : List String) :
    Except UseError (Option Zap.LogEntry) :=
  match s.logger with
  | none => .error .nilDereference
  | some lg => .ok (lg.Debugf template args)

def Debugw (s : GlobalState) (msg : String) (keysValues : List String) :
    Except UseError (Option Zap.LogEntry) :=
  match s.logger with
  | none => .error .nilDereference
  | some lg => .ok (lg.Debugw msg keysValues)

def Info (s : GlobalState) (args : List String) :
    Except UseError (Option Zap.LogEntry) :=
  match s.logger with
  | none => .error .nilDereference
  | some lg => .ok (lg.Info args)

def Infof (s : GlobalState) (template : String) (args : List String) :
    Except UseError (Option Zap.LogEntry) :=
  match s.logger with
  | none => .error .nilDereference
  | some lg => .ok (lg.Infof template args)

def Infow (s : GlobalState) (msg : String) (keysValues : List String) :
    Except UseError (Option Zap.LogEntry) :=
  match s.logger with
  | none => .error .nilDereference
  | some lg => .ok (lg.Infow msg keysValues)

def Warn (s : GlobalState) (args : List String) :
    Except UseError (Option Zap.LogEntry) :=
  match s.logger with
  | none => .error .nilDereference
  | some lg => .ok (lg.Warn args)

def Warnf (s : GlobalState) (template : String) (args : List String) :
    Except UseError (Option Zap.LogEntry) :=
  match s.logger with
  | none => .error .nilDereference
  | some lg => .ok (lg.Warnf template args)

def Warnw (s : GlobalState) (msg : String) (keysValues : List String) :
    Except UseError (Option Zap.LogEntry) :=
  match s.logger with
  | none => .error .nilDereference
  | some lg => .ok (lg.Warnw msg keysValues)

def Error (s : GlobalState) (args : List String) :
    Except UseError (Option Zap.LogEntry) :=
  match s.logger with
  | none => .error .nilDereference
  | some lg => .ok (lg.Error args)

def Errorf (s : GlobalState) (template : String) (args : List String) :
    Except UseError (Option Zap.LogEntry) :=
  match s.logger with
  | none => .error .nilDereference
  | some lg => .ok (lg.Errorf template args)

def Errorw (s : GlobalState) (msg : String) (keysValues : List String) :
    Except UseError (Option Zap.LogEntry) :=
  match s.logger with
  | none => .error .nilDereference
  | some lg => .ok (lg.Errorw msg keysValues)

def Fatal (s : GlobalState) (args : List String) :
    Except UseError (Option Zap.LogEntry) :=
  match s.logger with
  | none => .error .nilDereference
  | some lg => .ok (lg.Fatal args)

def Fatalf (s : GlobalState) (template : String) (args : List String) :
    Except UseError (Option Zap.LogEntry) :=
  match s.logger with
  | none => .error .nilDereference
  | some lg => .ok (lg.Fatalf template args)

def Fatalw (s : GlobalState) (msg : String) (keysValues : List String) :
    Except UseError (Option Zap.LogEntry) :=
  match s.logger with
  | none => .error .nilDereference
  | some lg => .ok (lg.Fatalw msg keysValues)

def Panic (s : GlobalState) (args : List String) :
    Except UseError (Option Zap.LogEntry) :=
  match s.logger with
  | none => .error .nilDereference
  | some lg => .ok (lg.Panic args)

def Panicf (s : GlobalState) (template : String) (args : List String) :
    Except UseError (Option Zap.LogEntry) :=
  match s.logger with
  | none => .error .nilDereference
  | some lg => .ok (lg.Panicf template args)

def Panicw (s : GlobalState) (msg : String) (keysValues : List String) :
    Except UseError (Option Zap.LogEntry) :=
  match s.logger with
  | none => .error .nilDereference
  | some lg => .ok (lg.Panicw msg keysValues)

end Sazabi

section Helpers

open Sazabi

/-- Both branches of the resolver keep console encoding. -/
lemma resolvedConfig_encoding (env : String) :
    (resolvedConfig env).encoding = "console" := by
  unfold resolvedConfig
  split <;> rfl

/-- Building the resolved configuration always succeeds: both presets use
the registered console encoding. -/
lemma build_resolvedConfig (env : String) :
    (resolvedConfig env).Build =
      .ok { config := resolvedConfig env, callerSkip := 0 } := by
  unfold Zap.Config.Build
  rw [resolvedConfig_encoding]
  rfl

/-- `Initialize` always succeeds and installs the sugared, caller-skip-1
logger built from the resolved configuration. -/
lemma Initialize_eq (env : String) (s : GlobalState) :
    Initialize env s =
      .ok { logger := some { base := { config := resolvedConfig env, callerSkip := 1 } } } := by
  unfold Initialize
  rw [build_resolvedConfig]
  rfl

/-- The resolver in both branches sets `disableStacktrace`. -/
lemma resolvedConfig_disableStacktrace (env : String) :
    (resolvedConfig env).disableStacktrace = true := by
  unfold resolvedConfig
  split <;> rfl

end Helpers

/-- C1: for every environment label equal to "production" or "prod", the
configuration resolved by `Initialize` has minimum level Info, development
mode false, sampling policy with initial burst 100 and thereafter rate 100,
console encoding, and stack traces disabled. -/
theorem c1_production_resolution (env : String)
    (h : env = "production" ∨ env = "prod") :
    (Sazabi.resolvedConfig env).level = Zap.Level.infoLevel ∧
    (Sazabi.resolvedConfig env).development = false ∧
    (Sazabi.resolvedConfig env).sampling = some { initial := 100, thereafter := 100 } ∧
    (Sazabi.resolvedConfig env).encoding = "console" ∧
    (Sazabi.resolvedConfig env).disableStacktrace = true := by
  rcases h with h | h <;> subst h <;> exact ⟨rfl, rfl, rfl, rfl, rfl⟩

/-- Witness for C1 at the concrete label "production". -/
theorem c1_production_resolution_witness :
    (Sazabi.resolvedConfig "production").level = Zap.Level.infoLevel ∧
    (Sazabi.resolvedConfig "production").development = false ∧
    (Sazabi.resolvedConfig "production").sampling = some { initial := 100, thereafter := 100 } ∧
    (Sazabi.resolvedConfig "production").encoding = "console" ∧
    (Sazabi.resolvedConfig "production").disableStacktrace = true :=
  c1_production_resolution "production" (Or.inl rfl)

/-- C2: for every environment label other than "production" and "prod", the
configuration resolved by `Initialize` has minimum level Debug, development
mode true, and no sampling policy. -/
theorem c2_development_resolution (env : String)
    (h1 : env ≠ "production") (h2 : env ≠ "prod") :
    (Sazabi.resolvedConfig env).level = Zap.Level.debugLevel ∧
    (Sazabi.resolvedConfig env).development = true ∧
    (Sazabi.resolvedConfig env).sampling = none := by
  have hc : env ≠ Sazabi.ProductionEnvName ∧ env ≠ Sazabi.ProductionEnvShortName := ⟨h1, h2⟩
  simp only [Sazabi.resolvedConfig, if_pos hc]
  exact ⟨rfl, rfl, rfl⟩

/-- Witness for C2 at the concrete label "development". -/
theorem c2_development_resolution_witness :
    (Sazabi.resolvedConfig "development").level = Zap.Level.debugLevel ∧
    (Sazabi.resolvedConfig "development").development = true ∧
    (Sazabi.resolvedConfig "development").sampling = none :=
  c2_development_resolution "development" (by decide) (by decide)

/-- C3: exactly one configuration is active at any time: re-initialization
fully replaces the global logger with the one resolved from the second
label. Running `Initialize env1` and then `Initialize env2` on its result
reaches exactly the state `Initialize env2` reaches from any prior state —
nothing of the first configuration is merged in. -/
theorem c3_reinit_replaces (env1 env2 : String) (s : Sazabi.GlobalState) :
    (Sazabi.Initialize env1 s).bind (fun s1 => Sazabi.Initialize env2 s1) =
      Sazabi.Initialize env2 s := by
  rw [Initialize_eq env1 s]
  rfl

/-- C4: `Initialize` propagates a build failure of the resolved
configuration as an abnormal termination (the Go `panic(err)`), recovering
nothing; on build success it returns normally with the global logger set to
the built, caller-skip-adjusted, sugared logger. -/
theorem c4_initialize_build_semantics (env : String) (s : Sazabi.GlobalState) :
    (∀ e, (Sazabi.resolvedConfig env).Build = .error e →
      Sazabi.Initialize env s = .error e) ∧
    (∀ l, (Sazabi.resolvedConfig env).Build = .ok l →
      Sazabi.Initialize env s =
        .ok { logger := some ((l.WithOptions (Zap.AddCallerSkip 1)).Sugar) }) := by
  constructor
  · intro e he
    unfold Sazabi.Initialize
    rw [he]
  · intro l hl
    unfold Sazabi.Initialize
    rw [hl]

/-- Witness for C4 at the concrete label "prod": the build of the resolved
configuration succeeds and `Initialize` returns normally with the logger
set. -/
theorem c4_initialize_build_semantics_witness :
    Sazabi.Initialize "prod" Sazabi.initialState =
      .ok { logger := some ((Zap.Logger.WithOptions
              { config := Sazabi.resolvedConfig "prod", callerSkip := 0 }
              (Zap.AddCallerSkip 1)).Sugar) } :=
  (c4_initialize_build_semantics "prod" Sazabi.initialState).2
    { config := Sazabi.resolvedConfig "prod", callerSkip := 0 } rfl

/-- C5: every logging variant (plain, formatted, structured) of every
severity (Debug, Info, Warn, Error, Fatal, Panic), invoked on the state
before `Initialize` has completed (global logger still nil), is a
nil-handle-dereference failure — a crash, not a no-op and not a lazy
initialization. -/
theorem c5_uninitialized_use_crashes :
    (∀ args, Sazabi.Debug Sazabi.initialState args = .error .nilDereference) ∧
    (∀ t args, Sazabi.Debugf Sazabi.initialState t args = .error .nilDereference) ∧
    (∀ m kvs, Sazabi.Debugw Sazabi.initialState m kvs = .error .nilDereference) ∧
    (∀ args, Sazabi.Info Sazabi.initialState args = .error .nilDereference) ∧
    (∀ t args, Sazabi.Infof Sazabi.initialState t args = .error .nilDereference) ∧
    (∀ m kvs, Sazabi.Infow Sazabi.initialState m kvs = .error .nilDereference) ∧
    (∀ args, Sazabi.Warn Sazabi.initialState args = .error .nilDereference) ∧
    (∀ t args, Sazabi.Warnf Sazabi.initialState t args = .error .nilDereference) ∧
    (∀ m kvs, Sazabi.Warnw Sazabi.initialState m kvs = .error .nilDereference) ∧
    (∀ args, Sazabi.Error Sazabi.initialState args = .error .nilDereference) ∧
    (∀ t args, Sazabi.Errorf Sazabi.initialState t args = .error .nilDereference) ∧
    (∀ m kvs, Sazabi.Errorw Sazabi.initialState m kvs = .error .nilDereference) ∧
    (∀ args, Sazabi.Fatal Sazabi.initialState args = .error .nilDereference) ∧
    (∀ t args, Sazabi.Fatalf Sazabi.initialState t args = .error .nilDereference) ∧
    (∀ m kvs, Sazabi.Fatalw Sazabi.initialState m kvs = .error .nilDereference) ∧
    (∀ args, Sazabi.Panic Sazabi.initialState args = .error .nilDereference) ∧
    (∀ t args, Sazabi.Panicf Sazabi.initialState t args = .error .nilDereference) ∧
    (∀ m kvs, Sazabi.Panicw Sazabi.initialState m kvs = .error .nilDereference) :=
  ⟨fun _ => rfl, fun _ _ => rfl, fun _ _ => rfl,
   fun _ => rfl, fun _ _ => rfl, fun _ _ => rfl,
   fun _ => rfl, fun _ _ => rfl, fun _ _ => rfl,
   fun _ => rfl, fun _ _ => rfl, fun _ _ => rfl,
   fun _ => rfl, fun _ _ => rfl, fun _ _ => rfl,
   fun _ => rfl, fun _ _ => rfl, fun _ _ => rfl⟩

/-- C6: `Default` builds and returns a development-mode logger — Debug
level, development mode, no sampling, stack traces disabled, the same
caller-skip-1 adjustment — and in the state-passing embedding leaves the
global state untouched, so facade calls after it still see the last
`Initialize`d configuration. -/
theorem c6_default_independent (s : Sazabi.GlobalState) :
    (Sazabi.DefaultSt s).2 = s ∧
    ∃ lg, Sazabi.Default = .ok lg ∧
      lg.base.config.level = Zap.Level.debugLevel ∧
      lg.base.config.development = true ∧
      lg.base.config.sampling = none ∧
      lg.base.config.disableStacktrace = true ∧
      lg.base.callerSkip = 1 := by
  refine ⟨rfl, ?_⟩
  exact ⟨{ base := { config := { Zap.NewDevelopmentConfig with disableStacktrace := true },
                     callerSkip := 1 } },
         rfl, rfl, rfl, rfl, rfl, rfl⟩

/-- C7: for every environment label, the logger installed by `Initialize`
has stack traces disabled — the resolver sets `DisableStacktrace` in both
branches, overriding the library's and the preset's default of false — and
the logger returned by `Default` has them disabled as well. -/
theorem c7_stacktrace_disabled (env : String) (s : Sazabi.GlobalState) :
    (Sazabi.resolvedConfig env).disableStacktrace = true ∧
    (∃ lg, Sazabi.Initialize env s = .ok { logger := some lg } ∧
      lg.base.config.disableStacktrace = true) ∧
    Zap.NewDevelopmentConfig.disableStacktrace = false ∧
    Sazabi.newProductionConfig.disableStacktrace = false ∧
    (∃ lg, Sazabi.Default = .ok lg ∧ lg.base.config.disableStacktrace = true) := by
  refine ⟨resolvedConfig_disableStacktrace env, ?_, rfl, rfl, ?_⟩
  · exact ⟨{ base := { config := Sazabi.resolvedConfig env, callerSkip := 1 } },
           Initialize_eq env s, resolvedConfig_disableStacktrace env⟩
  · exact ⟨{ base := { config := { Zap.NewDevelopmentConfig with disableStacktrace := true },
                       callerSkip := 1 } },
           rfl, rfl⟩

/-- C8: the production encoder configuration maps the semantic fields
exactly: time to key "ts" in ISO-8601 format, level to key "level"
capitalized, logger name to key "logger", caller to key "caller" in
shortened form, message to key "msg", stacktrace to key "stacktrace". -/
theorem c8_production_encoder_fields :
    Sazabi.newProductionEncoderConfig.timeKey = "ts" ∧
    Sazabi.newProductionEncoderConfig.encodeTime = Zap.TimeEncoder.iso8601TimeEncoder ∧
    Sazabi.newProductionEncoderConfig.levelKey = "level" ∧
    Sazabi.newProductionEncoderConfig.encodeLevel = Zap.LevelEncoder.capitalLevelEncoder ∧
    Sazabi.newProductionEncoderConfig.nameKey = "logger" ∧
    Sazabi.newProductionEncoderConfig.callerKey = "caller" ∧
    Sazabi.newProductionEncoderConfig.encodeCaller = Zap.CallerEncoder.shortCallerEncoder ∧
    Sazabi.newProductionEncoderConfig.messageKey = "msg" ∧
    Sazabi.newProductionEncoderConfig.stacktraceKey = "stacktrace" :=
  ⟨rfl, rfl, rfl, rfl, rfl, rfl, rfl, rfl, rfl⟩

/-- C9: for every environment label, the logger installed by `Initialize`
carries a caller skip of exactly 1 — the freshly built logger starts at 0
and `AddCallerSkip(1)` is applied once — and the logger returned by
`Default` likewise. -/
theorem c9_caller_skip_one (env : String) (s : Sazabi.GlobalState) :
    (Sazabi.resolvedConfig env).Build =
      .ok { config := Sazabi.resolvedConfig env, callerSkip := 0 } ∧
    (∃ lg, Sazabi.Initialize env s = .ok { logger := some lg } ∧
      lg.base.callerSkip = 1) ∧
    (∃ lg, Sazabi.Default = .ok lg ∧ lg.base.callerSkip = 1) := by
  refine ⟨build_resolvedConfig env, ?_, ?_⟩
  · exact ⟨{ base := { config := Sazabi.resolvedConfig env, callerSkip := 1 } },
           Initialize_eq env s, rfl⟩
  · exact ⟨{ base := { config := { Zap.NewDevelopmentConfig with disableStacktrace := true },
                       callerSkip := 1 } },
           rfl, rfl⟩

/-- C10: the environment comparison in `Initialize` is exact, case-sensitive
string equality against "production" and "prod": labels differing only in
case or surrounding whitespace resolve the development configuration, while
the exact labels resolve the production one. -/
theorem c10_case_sensitive_comparison :
    ((Sazabi.resolvedConfig "Production").level = Zap.Level.debugLevel ∧
     (Sazabi.resolvedConfig "Production").development = true ∧
     (Sazabi.resolvedConfig "Production").sampling = none) ∧
    ((Sazabi.resolvedConfig "PROD").level = Zap.Level.debugLevel ∧
     (Sazabi.resolvedConfig "PROD").development = true ∧
     (Sazabi.resolvedConfig "PROD").sampling = none) ∧
    ((Sazabi.resolvedConfig " prod").level = Zap.Level.debugLevel ∧
     (Sazabi.resolvedConfig " prod").development = true ∧
     (Sazabi.resolvedConfig " prod").sampling = none) ∧
    (Sazabi.resolvedConfig "production").level = Zap.Level.infoLevel ∧
    (Sazabi.resolvedConfig "prod").level = Zap.Level.infoLevel := by
  decide
